import Mathlib

/-!
Verification of the request-dispatch and typed-resource-resolution layer of a
Deezer REST-API client crate.

The embedding models, faithfully to the Rust source:
  * `src/client.rs` — `DeezerClient::get_entity`, `get_entity_from_url`,
    `_get_connection` parameter assembly, `get_with_optional_params`;
  * `src/search.rs` — `SearchQuery`, `SearchOrder`, `SearchClient::send`
    parameter assembly;
  * `src/clients/albums.rs` — `AlbumIdentifier` and `AlbumClient::get`;
  * `src/models/mod.rs` — `DeezerArray` and its access paths;
  * the per-model URL builders (`get_api_url` / `get_by_id`) of
    `src/models/*.rs`;
  * `src/error.rs` — `DeezerError`, together with a model of the external
    collaborator `reqwest` (status codes, `error_for_status`, the error kinds
    a request can surface).

HTTP transport and JSON decoding are external collaborators of the crate; they
are modelled as explicit arguments (an environment function from URL to
transport outcome, and a decoder function from JSON to an optional value).
-/

namespace Deezer

/-- Model of `reqwest::StatusCode`: a bare HTTP status code. -/
structure StatusCode where
  code : Nat
deriving DecidableEq

/-- `StatusCode::NOT_FOUND`, i.e. HTTP 404. -/
def StatusCode.notFound : StatusCode := ⟨404⟩

/-- Model of `reqwest::StatusCode::is_success`: true exactly on the 2xx range. -/
def StatusCode.isSuccess (s : StatusCode) : Bool :=
  decide (200 ≤ s.code) && decide (s.code < 300)

/-- Minimal JSON value model, enough to express response bodies and the
`{"data": [...]}` envelope that `serde` decodes. -/
inductive Json where
  | null
  | bool (b : Bool)
  | num (n : Int)
  | str (s : String)
  | arr (elems : List Json)
  | obj (fields : List (String × Json))

/-- Modelled from the spec: the kinds of `reqwest::Error` (an external
collaborator) that this crate's request path can produce — a transport/request
failure, an `error_for_status` failure carrying the status, and a body-decode
failure. -/
inductive ReqwestError where
  | request
  | status (s : StatusCode)
  | decode
deriving DecidableEq

/-- `src/error.rs`: `enum DeezerError { HttpError(#[from] reqwest::Error) }` —
a single variant wrapping the `reqwest` error. -/
inductive DeezerError where
  | httpError (e : ReqwestError)
deriving DecidableEq

/-- The three error kinds of the spec's error taxonomy (§7). -/
inductive ErrorKind where
  | transport
  | badStatus
  | decodeFailure
deriving DecidableEq

/-- The kind a `reqwest::Error` exposes (`is_request` / `is_status` /
`is_decode` on the real type). -/
def ReqwestError.kind : ReqwestError → ErrorKind
  | .request => .transport
  | .status _ => .badStatus
  | .decode => .decodeFailure

/-- The kind exposed by a `DeezerError` (through its wrapped `reqwest::Error`). -/
def DeezerError.kind : DeezerError → ErrorKind
  | .httpError e => e.kind

/-- The HTTP status carried by a `DeezerError`, when it is a status error
(`reqwest::Error::status` on the real type). -/
def DeezerError.statusOf : DeezerError → Option StatusCode
  | .httpError (.status s) => some s
  | .httpError .request => none
  | .httpError .decode => none

/-- Outcome of `reqwest::Client::get(url).send()`: either a transport failure
or a response with a status and a (JSON) body. -/
inductive TransportOut where
  | failure
  | response (status : StatusCode) (body : Json)

/-- `src/client.rs`: `const BASE_URL: &str = "https://api.deezer.com"`. -/
def BASE_URL : String := "https://api.deezer.com"

/-- Modelled from the spec: `reqwest::Response::error_for_status` — "raises an
error for any response outside the success range", carrying the status. -/
def errorForStatus (s : StatusCode) : Except DeezerError Unit :=
  if s.isSuccess then .ok () else .error (.httpError (.status s))

/-- `DeezerClient::get_entity_from_url` (src/client.rs lines 147-159):
prefix the base URL, send the GET, return `Ok(None)` on 404 (checked first),
then `error_for_status`, then decode the body. `dec` models `serde` decoding
into `T`; `env` models the network. -/
def getEntityFromUrl {T : Type} (dec : Json → Option T) (env : String → TransportOut)
    (url : String) : Except DeezerError (Option T) :=
  match env (BASE_URL ++ "/" ++ url) with
  | .failure => .error (.httpError .request)
  | .response status body =>
    if status = StatusCode.notFound then .ok none
    else
      match errorForStatus status with
      | .error e => .error e
      | .ok () =>
        match dec body with
        | some v => .ok (some v)
        | none => .error (.httpError .decode)

/-- `DeezerClient::get_entity` (src/client.rs lines 138-145): build the URL
with the model type's URL builder (`T::get_by_id` / `get_api_url`), then
delegate to `get_entity_from_url`. -/
def getEntity {T : Type} (getUrl : Nat → String) (dec : Json → Option T)
    (env : String → TransportOut) (id : Nat) : Except DeezerError (Option T) :=
  getEntityFromUrl dec env (getUrl id)

/-- `impl DeezerObject for Album` (src/models/album.rs): `format!("album/{}", id)`. -/
def albumGetApiUrl (id : Nat) : String := "album/" ++ toString id

/-- `impl DeezerObject for Artist` (src/models/artist.rs): `format!("artist/{}", id)`. -/
def artistGetById (id : Nat) : String := "artist/" ++ toString id

/-- `impl DeezerObject for ArtistAlbum` (src/models/artist.rs lines 203-207):
`format!("artist/{}/albums", id)`. -/
def artistAlbumGetById (id : Nat) : String := "artist/" ++ toString id ++ "/albums"

/-- `impl DeezerObject for Comment` (src/models/comment.rs). -/
def commentGetApiUrl (id : Nat) : String := "comment/" ++ toString id

/-- `impl DeezerObject for Editorial` (src/models/editorial.rs). -/
def editorialGetApiUrl (id : Nat) : String := "editorial/" ++ toString id

/-- `impl DeezerObject for Genre` (src/models/genre.rs). -/
def genreGetApiUrl (id : Nat) : String := "genre/" ++ toString id

/-- `impl DeezerObject for Playlist` (src/models/playlist.rs). -/
def playlistGetApiUrl (id : Nat) : String := "playlist/" ++ toString id

/-- `impl DeezerObject for Radio` (src/models/radio.rs). -/
def radioGetApiUrl (id : Nat) : String := "radio/" ++ toString id

/-- `impl DeezerObject for Track` (src/models/track.rs). -/
def trackGetApiUrl (id : Nat) : String := "track/" ++ toString id

/-- `impl DeezerObject for User` (src/models/user.rs). -/
def userGetApiUrl (id : Nat) : String := "user/" ++ toString id

/-- `DeezerClient::album` (src/client.rs lines 36-38): `self.get_entity(id)`
instantiated at `Album`. -/
def DeezerClient.album {T : Type} (dec : Json → Option T) (env : String → TransportOut)
    (id : Nat) : Except DeezerError (Option T) :=
  getEntity albumGetApiUrl dec env id

/-- `src/clients/albums.rs`: `enum AlbumIdentifier { Id(u64), Upc(String) }`. -/
inductive AlbumIdentifier where
  | id (n : Nat)
  | upc (s : String)
deriving DecidableEq

/-- `AlbumIdentifier::serialize` (src/clients/albums.rs lines 167-174):
`Id(id) => id.to_string()`, `Upc(upc) => format!("upc:{}", upc)`. -/
def AlbumIdentifier.serialize : AlbumIdentifier → String
  | .id n => toString n
  | .upc u => "upc:" ++ u

/-- `AlbumsClient::id` (src/clients/albums.rs lines 17-22): binds
`id.into()`, i.e. `AlbumIdentifier::Id(id)`, into an `AlbumClient`. -/
def AlbumsClient.id (n : Nat) : AlbumIdentifier := .id n

/-- `AlbumClient::get` (src/clients/albums.rs lines 92-95):
`format!("album/{}", self.identifier.serialize())` then `get_entity_from_url`. -/
def AlbumClient.get {T : Type} (dec : Json → Option T) (env : String → TransportOut)
    (identifier : AlbumIdentifier) : Except DeezerError (Option T) :=
  getEntityFromUrl dec env ("album/" ++ identifier.serialize)

/-- `src/search.rs`: `enum SearchOrder` — the eleven sort strategies. -/
inductive SearchOrder where
  | ranking
  | trackAsc
  | trackDesc
  | artistAsc
  | artistDesc
  | albumAsc
  | albumDesc
  | ratingAsc
  | ratingDesc
  | durationAsc
  | durationDesc
deriving DecidableEq, Fintype

/-- `impl Display for SearchOrder` (src/search.rs lines 114-130): the wire
token written for each variant. -/
def SearchOrder.toWire : SearchOrder → String
  | .ranking => "RANKING"
  | .trackAsc => "TRACK_ASC"
  | .trackDesc => "TRACK_DESC"
  | .artistAsc => "ARTIST_ASC"
  | .artistDesc => "ARTIST_DESC"
  | .albumAsc => "ALBUM_ASC"
  | .albumDesc => "ALBUM_DESC"
  | .ratingAsc => "RATING_ASC"
  | .ratingDesc => "RATING_DESC"
  | .durationAsc => "DURATION_ASC"
  | .durationDesc => "DURATION_DESC"

/-- `impl Default for SearchOrder` (src/search.rs lines 132-136). -/
def searchOrderDefault : SearchOrder := .ranking

/-- `src/search.rs`: `struct SearchQuery { query, strict, order }`. -/
structure SearchQuery where
  query : String
  strict : Bool
  order : SearchOrder

/-- `SearchQuery::new` (src/search.rs lines 89-97): the given query string,
`strict: false`, `order: Default::default()`. -/
def SearchQuery.new (q : String) : SearchQuery :=
  { query := q, strict := false, order := searchOrderDefault }

/-- `SearchClient::strict` (src/search.rs lines 23-26): sets the strict flag. -/
def SearchQuery.setStrict (q : SearchQuery) : SearchQuery :=
  { q with strict := true }

/-- `SearchClient::order` (src/search.rs lines 28-31): sets the order. -/
def SearchQuery.setOrder (q : SearchQuery) (o : SearchOrder) : SearchQuery :=
  { q with order := o }

/-- The parameter map assembled by `SearchClient::send` (src/search.rs lines
33-43): insert `q`, insert `strict -> "on"` only when the flag is set, insert
`order`. The `HashMap` is represented as an association list; the three keys
are distinct, so no insertion overwrites another. -/
def sendParams (q : SearchQuery) : List (String × String) :=
  [("q", q.query)]
    ++ (if q.strict then [("strict", "on")] else [])
    ++ [("order", q.order.toWire)]

/-- The parameter map assembled by `DeezerClient::_get_connection`
(src/client.rs lines 200-206): start empty, insert `limit` only when supplied,
insert `offset` only when supplied, each rendered with `to_string()`. -/
def connectionParams (limit offset : Option Nat) : List (String × String) :=
  (match limit with
    | some l => [("limit", toString l)]
    | none => [])
    ++ (match offset with
    | some o => [("offset", toString o)]
    | none => [])

/-- `src/models/mod.rs` lines 51-54: `struct DeezerArray<T> { data: Vec<T> }`. -/
structure DeezerArray (T : Type) where
  data : List T

/-- `DeezerArray::iter` (src/models/mod.rs lines 56-60): `self.data.iter()`. -/
def DeezerArray.iter {T : Type} (a : DeezerArray T) : List T := a.data

/-- `impl Deref for DeezerArray` (src/models/mod.rs lines 62-68): the slice
view `self.data.deref()`. -/
def DeezerArray.deref {T : Type} (a : DeezerArray T) : List T := a.data

/-- `impl AsRef<[T]> for DeezerArray` (src/models/mod.rs lines 70-74):
`&self.data`. -/
def DeezerArray.asRef {T : Type} (a : DeezerArray T) : List T := a.data

/-- `impl IntoIterator for DeezerArray` (src/models/mod.rs lines 76-83):
`self.data.into_iter()`. -/
def DeezerArray.intoIter {T : Type} (a : DeezerArray T) : List T := a.data

/-- The unwrap step of `DeezerClient::get_all` / `get_array_params` /
`get_connection` (src/client.rs): `Ok(res.data)`. -/
def getAllUnwrap {T : Type} (res : DeezerArray T) : List T := res.data

/-- Element-wise decoding of a JSON array body, as `serde` does for `Vec<T>`:
each element must decode, order kept, any element failure fails the whole. -/
def decodeJsonList {T : Type} (dec : Json → Option T) : List Json → Option (List T)
  | [] => some []
  | x :: xs =>
    match dec x, decodeJsonList dec xs with
    | some v, some vs => some (v :: vs)
    | _, _ => none

/-- `serde` decoding of `DeezerArray<T>` (derived `Deserialize` on a struct
with the single field `data: Vec<T>`): the body must be an object whose
`data` field is an array, decoded element-wise. -/
def decodeDeezerArray {T : Type} (dec : Json → Option T) (j : Json) :
    Option (DeezerArray T) :=
  match j with
  | .obj fields =>
    match fields.lookup "data" with
    | some (.arr elems) => (decodeJsonList dec elems).map DeezerArray.mk
    | some _ => none
    | none => none
  | _ => none

/-- Outcome of a subset-entity `get_full` accessor: a full entity, a
propagated error, or a panic. -/
inductive GetFullResult (E A : Type) where
  | ok (a : A)
  | err (e : E)
  | panicked
deriving DecidableEq

/-- The `get_full` pattern of the subset entities (`AlbumArtist::get_full`,
`ContributorArtist::get_full`, ..., src/models/album.rs lines 165-178 and
src/models/artist.rs lines 144-151): `Entity::get(self.id).await?.unwrap()` —
the `?` propagates an error, the `unwrap` panics on `None`, and a present
value is returned as `Ok`. -/
def getFull {E A : Type} (fetched : Except E (Option A)) : GetFullResult E A :=
  match fetched with
  | .error e => .err e
  | .ok none => .panicked
  | .ok (some a) => .ok a

/-- A concrete element decoder used by witnesses: decodes a JSON number. -/
def decNat : Json → Option Nat
  | .num n => some n.toNat
  | _ => none

/-- Shape of an Identifiable by-id URL as the spec words it (§3): the resource
kind's path segment, a slash, then the decimal id, with nothing after the id
segment. -/
def byIdUrlShape (kind : String) (f : Nat → String) : Prop :=
  ∀ id, f id = kind ++ "/" ++ toString id

/-- Helper: element-wise JSON list decoding relates input and output pointwise
in order — same length, and the `i`-th output is the decode of the `i`-th
input. -/
theorem decodeJsonList_ordered {T : Type} (dec : Json → Option T) :
    ∀ xs ys, decodeJsonList dec xs = some ys →
      List.Forall₂ (fun x y => dec x = some y) xs ys := by
  intro xs
  induction xs with
  | nil =>
    intro ys h
    simp only [decodeJsonList, Option.some.injEq] at h
    subst h
    exact List.Forall₂.nil
  | cons x xs ih =>
    intro ys h
    simp only [decodeJsonList] at h
    cases hx : dec x with
    | none => rw [hx] at h; exact absurd h (by simp)
    | some v =>
      rw [hx] at h
      cases hxs : decodeJsonList dec xs with
      | none => rw [hxs] at h; exact absurd h (by simp)
      | some vs =>
        rw [hxs] at h
        simp only [Option.some.injEq] at h
        subst h
        exact List.Forall₂.cons hx (ih vs hxs)

/-! ## Theorems -/

/-- Claim C2: `SearchClient::send` assembles exactly `{q: query, order: wire
token}` with no `strict` key when strict was never enabled (default order wire
token `"RANKING"`); enabling strict adds exactly the single entry
`strict -> "on"`; no key other than `q`, `strict`, `order` is ever present. -/
theorem send_params_spec (q : String) (sq : SearchQuery) :
    sendParams (SearchQuery.new q) = [("q", q), ("order", "RANKING")] ∧
    (SearchQuery.new q).strict = false ∧
    (SearchQuery.new q).order = searchOrderDefault ∧
    searchOrderDefault.toWire = "RANKING" ∧
    List.lookup "strict" (sendParams (SearchQuery.new q)) = none ∧
    sendParams (SearchQuery.setStrict (SearchQuery.new q)) =
      [("q", q), ("strict", "on"), ("order", "RANKING")] ∧
    (sq.strict = false → sendParams sq = [("q", sq.query), ("order", sq.order.toWire)]) ∧
    (sq.strict = true →
      sendParams sq = [("q", sq.query), ("strict", "on"), ("order", sq.order.toWire)]) ∧
    (∀ k v, (k, v) ∈ sendParams sq → k = "q" ∨ k = "strict" ∨ k = "order") := by
  refine ⟨rfl, rfl, rfl, rfl, rfl, rfl, ?_, ?_, ?_⟩
  · intro h; simp [sendParams, h]
  · intro h; simp [sendParams, h]
  · intro k v hmem
    cases hsq : sq.strict <;> simp [sendParams, hsq] at hmem <;> tauto

/-- Witness for C2 at a concrete query: the strict-mode hypotheses are
discharged on concrete builders. -/
theorem send_params_spec_witness :
    sendParams { query := "eminem", strict := false, order := .ranking } =
      [("q", "eminem"), ("order", "RANKING")] ∧
    sendParams { query := "eminem", strict := true, order := .ranking } =
      [("q", "eminem"), ("strict", "on"), ("order", "RANKING")] := by
  exact ⟨(send_params_spec "eminem" { query := "eminem", strict := false, order := .ranking }).2.2.2.2.2.2.1 rfl,
    (send_params_spec "eminem" { query := "eminem", strict := true, order := .ranking }).2.2.2.2.2.2.2.1 rfl⟩

/-- Claim C3: `_get_connection` sends neither pagination key when neither is
supplied, exactly `limit -> decimal n` when only the limit is supplied
(no `offset` entry), and each supplied parameter contributes exactly its own
key. -/
theorem connection_params_spec (n m : Nat) :
    connectionParams none none = [] ∧
    connectionParams (some n) none = [("limit", toString n)] ∧
    connectionParams none (some m) = [("offset", toString m)] ∧
    connectionParams (some n) (some m) =
      [("limit", toString n), ("offset", toString m)] ∧
    List.lookup "offset" (connectionParams (some n) none) = none ∧
    List.lookup "limit" (connectionParams none (some m)) = none := by
  refine ⟨rfl, rfl, rfl, rfl, ?_, ?_⟩ <;> simp [connectionParams, List.lookup]

/-- Claim C5: `AlbumIdentifier::serialize` renders a numeric id as its bare
decimal string and a UPC key as `"upc:"` followed by the key; every identifier
is exactly one of the two variants and serializes by its own rule. -/
theorem album_identifier_serialize_spec (n : Nat) (s : String) :
    AlbumIdentifier.serialize (.id n) = toString n ∧
    AlbumIdentifier.serialize (.upc s) = "upc:" ++ s ∧
    (∀ i : AlbumIdentifier,
      (∃ k, i = .id k ∧ i.serialize = toString k) ∨
      (∃ u, i = .upc u ∧ i.serialize = "upc:" ++ u)) := by
  refine ⟨rfl, rfl, ?_⟩
  intro i
  cases i with
  | id k => exact .inl ⟨k, rfl, rfl⟩
  | upc u => exact .inr ⟨u, rfl, rfl⟩

/-- Claim C6: `SearchOrder` is a closed enumeration of exactly eleven
variants; its wire serialization is total and injective, mapping each variant
to its canonical uppercase token; the default is the ranking order. -/
theorem search_order_spec :
    Fintype.card SearchOrder = 11 ∧
    Function.Injective SearchOrder.toWire ∧
    searchOrderDefault = SearchOrder.ranking ∧
    SearchOrder.toWire .ranking = "RANKING" ∧
    SearchOrder.toWire .trackAsc = "TRACK_ASC" ∧
    SearchOrder.toWire .trackDesc = "TRACK_DESC" ∧
    SearchOrder.toWire .artistAsc = "ARTIST_ASC" ∧
    SearchOrder.toWire .artistDesc = "ARTIST_DESC" ∧
    SearchOrder.toWire .albumAsc = "ALBUM_ASC" ∧
    SearchOrder.toWire .albumDesc = "ALBUM_DESC" ∧
    SearchOrder.toWire .ratingAsc = "RATING_ASC" ∧
    SearchOrder.toWire .ratingDesc = "RATING_DESC" ∧
    SearchOrder.toWire .durationAsc = "DURATION_ASC" ∧
    SearchOrder.toWire .durationDesc = "DURATION_DESC" := by
  refine ⟨by decide, ?_, rfl, rfl, rfl, rfl, rfl, rfl, rfl, rfl, rfl, rfl, rfl, rfl⟩
  intro a b h
  revert h
  cases a <;> cases b <;> decide

/-- Claim C9: the subset-entity `get_full` accessors panic when the underlying
by-id fetch returns the absent outcome `Ok(None)`, return the full entity on
`Ok(Some)`, and propagate any fetch error. -/
theorem get_full_spec (E A : Type) (e : E) (a : A) :
    getFull (E := E) (A := A) (.ok none) = .panicked ∧
    getFull (E := E) (.ok (some a)) = .ok a ∧
    getFull (A := A) (.error e) = .err e :=
  ⟨rfl, rfl, rfl⟩

/-- Claim C10: `DeezerClient::album(id)` and
`DeezerClient::albums().id(id).get()` build the identical relative URL
`"album/{id}"` and both dispatch through `get_entity_from_url`, so the same
response environment yields the same result from both paths. -/
theorem album_paths_equivalent {T : Type} (dec : Json → Option T)
    (env : String → TransportOut) (id : Nat) :
    albumGetApiUrl id = "album/" ++ (AlbumsClient.id id).serialize ∧
    DeezerClient.album dec env id = getEntityFromUrl dec env (albumGetApiUrl id) ∧
    AlbumClient.get dec env (AlbumsClient.id id) =
      getEntityFromUrl dec env (albumGetApiUrl id) ∧
    DeezerClient.album dec env id = AlbumClient.get dec env (AlbumsClient.id id) :=
  ⟨rfl, rfl, rfl, rfl⟩

/-- Claim C1: `get_entity_from_url` (and through it every by-id accessor)
returns `Ok(None)` on a 404 response — the 404 check precedes the
success-range check, as witnessed by 404 itself being non-success — returns an
error on a transport failure, on any other non-success status, or on a decode
failure, and returns `Ok(Some v)` on a successful decode; `get_entity`
delegates to it. -/
theorem get_entity_from_url_spec {T : Type} (dec : Json → Option T)
    (env : String → TransportOut) (url : String) :
    StatusCode.notFound.isSuccess = false ∧
    (env (BASE_URL ++ "/" ++ url) = .failure →
      getEntityFromUrl dec env url = .error (.httpError .request)) ∧
    (∀ status body, env (BASE_URL ++ "/" ++ url) = .response status body →
      (status = StatusCode.notFound → getEntityFromUrl dec env url = .ok none) ∧
      (status ≠ StatusCode.notFound → status.isSuccess = false →
        getEntityFromUrl dec env url = .error (.httpError (.status status))) ∧
      (status ≠ StatusCode.notFound → status.isSuccess = true → dec body = none →
        getEntityFromUrl dec env url = .error (.httpError .decode)) ∧
      (∀ v, status ≠ StatusCode.notFound → status.isSuccess = true → dec body = some v →
        getEntityFromUrl dec env url = .ok (some v))) ∧
    (∀ getUrl : Nat → String, ∀ id : Nat,
      getEntity getUrl dec env id = getEntityFromUrl dec env (getUrl id)) := by
  refine ⟨rfl, ?_, ?_, fun _ _ => rfl⟩
  · intro h
    unfold getEntityFromUrl
    rw [h]
  · intro status body h
    refine ⟨?_, ?_, ?_, ?_⟩
    · intro h404
      unfold getEntityFromUrl
      rw [h]
      simp [h404]
    · intro h404 hs
      unfold getEntityFromUrl
      rw [h]
      simp [h404, errorForStatus, hs]
    · intro h404 hs hd
      unfold getEntityFromUrl
      rw [h]
      simp [h404, errorForStatus, hs, hd]
    · intro v h404 hs hd
      unfold getEntityFromUrl
      rw [h]
      simp [h404, errorForStatus, hs, hd]

/-- Witness for C1 at concrete responses: a 404 yields `Ok(None)`, a 500
yields a status error, a decodable 200 yields `Ok(Some)`, an undecodable 200
yields a decode error. -/
theorem get_entity_from_url_spec_witness :
    getEntityFromUrl decNat (fun _ => .response ⟨404⟩ Json.null) "album/1" = .ok none ∧
    getEntityFromUrl decNat (fun _ => .response ⟨500⟩ Json.null) "album/1" =
      .error (.httpError (.status ⟨500⟩)) ∧
    getEntityFromUrl decNat (fun _ => .response ⟨200⟩ (Json.num 3)) "album/1" =
      .ok (some 3) ∧
    getEntityFromUrl decNat (fun _ => .response ⟨200⟩ Json.null) "album/1" =
      .error (.httpError .decode) :=
  ⟨((get_entity_from_url_spec decNat (fun _ => .response ⟨404⟩ Json.null)
      "album/1").2.2.1 ⟨404⟩ Json.null rfl).1 rfl,
   ((get_entity_from_url_spec decNat (fun _ => .response ⟨500⟩ Json.null)
      "album/1").2.2.1 ⟨500⟩ Json.null rfl).2.1 (by decide) rfl,
   ((get_entity_from_url_spec decNat (fun _ => .response ⟨200⟩ (Json.num 3))
      "album/1").2.2.1 ⟨200⟩ (Json.num 3) rfl).2.2.2 3 (by decide) rfl rfl,
   ((get_entity_from_url_spec decNat (fun _ => .response ⟨200⟩ Json.null)
      "album/1").2.2.1 ⟨200⟩ Json.null rfl).2.2.1 (by decide) rfl rfl⟩

/-- Claim C4: `DeezerArray` unwrapping preserves the inner sequence exactly:
every read access path (`iter`, the `Deref`/`AsRef` slice views, `into_iter`,
and `get_all`'s unwrap) yields precisely the `data` field; a zero-length array
decodes to the empty sequence rather than an error; and element-wise decoding
relates input and output pointwise in order (no re-sorting). -/
theorem deezer_array_spec {T : Type} (dec : Json → Option T) (a : DeezerArray T)
    (xs : List Json) (ys : List T) :
    a.iter = a.data ∧ a.deref = a.data ∧ a.asRef = a.data ∧ a.intoIter = a.data ∧
    getAllUnwrap a = a.data ∧
    decodeDeezerArray dec (Json.obj [("data", Json.arr [])]) = some ⟨[]⟩ ∧
    decodeDeezerArray dec (Json.obj [("data", Json.arr xs)]) =
      (decodeJsonList dec xs).map DeezerArray.mk ∧
    (decodeJsonList dec xs = some ys →
      List.Forall₂ (fun x y => dec x = some y) xs ys) := by
  refine ⟨rfl, rfl, rfl, rfl, rfl, rfl, rfl, ?_⟩
  exact decodeJsonList_ordered dec xs ys

/-- Witness for C4: the pointwise-ordered decoding clause at a concrete
two-element array. -/
theorem deezer_array_spec_witness :
    List.Forall₂ (fun x y => decNat x = some y) [Json.num 3, Json.num 5] [3, 5] :=
  (deezer_array_spec decNat ⟨[]⟩ [Json.num 3, Json.num 5] [3, 5]).2.2.2.2.2.2.2 rfl

/-- Claim C8: every fallible operation yields a typed value, an explicit
absent marker, or an error; the error type exposes which of the three kinds
occurred — transport failure, unsuccessful status (carrying the status), or
decode failure — and `get_entity_from_url` produces errors of exactly the
matching kind. -/
theorem error_taxonomy_spec {T : Type} (dec : Json → Option T)
    (env : String → TransportOut) (url : String)
    (r : Except DeezerError (Option T)) :
    (r = .ok none ∨ (∃ v, r = .ok (some v)) ∨ (∃ e, r = .error e)) ∧
    (∀ e : DeezerError,
      (e.kind = .transport ↔ e = .httpError .request) ∧
      (e.kind = .badStatus ↔ ∃ s, e = .httpError (.status s)) ∧
      (e.kind = .decodeFailure ↔ e = .httpError .decode)) ∧
    (∀ s, (DeezerError.httpError (.status s)).statusOf = some s) ∧
    (env (BASE_URL ++ "/" ++ url) = .failure →
      ∃ e, getEntityFromUrl dec env url = .error e ∧ e.kind = .transport) ∧
    (∀ status body, env (BASE_URL ++ "/" ++ url) = .response status body →
      status ≠ StatusCode.notFound → status.isSuccess = false →
      ∃ e, getEntityFromUrl dec env url = .error e ∧ e.kind = .badStatus ∧
        e.statusOf = some status) ∧
    (∀ status body, env (BASE_URL ++ "/" ++ url) = .response status body →
      status ≠ StatusCode.notFound → status.isSuccess = true → dec body = none →
      ∃ e, getEntityFromUrl dec env url = .error e ∧ e.kind = .decodeFailure) := by
  refine ⟨?_, ?_, fun _ => rfl, ?_, ?_, ?_⟩
  · match r with
    | .ok none => exact .inl rfl
    | .ok (some v) => exact .inr (.inl ⟨v, rfl⟩)
    | .error e => exact .inr (.inr ⟨e, rfl⟩)
  · intro e
    match e with
    | .httpError .request =>
      refine ⟨by simp [DeezerError.kind, ReqwestError.kind], ?_, ?_⟩ <;>
        simp [DeezerError.kind, ReqwestError.kind]
    | .httpError (.status s) =>
      refine ⟨?_, ?_, ?_⟩ <;> simp [DeezerError.kind, ReqwestError.kind]
    | .httpError .decode =>
      refine ⟨?_, ?_, ?_⟩ <;> simp [DeezerError.kind, ReqwestError.kind]
  · intro h
    refine ⟨.httpError .request, ?_, rfl⟩
    unfold getEntityFromUrl
    rw [h]
  · intro status body h h404 hs
    refine ⟨.httpError (.status status), ?_, rfl, rfl⟩
    unfold getEntityFromUrl
    rw [h]
    simp [h404, errorForStatus, hs]
  · intro status body h h404 hs hd
    refine ⟨.httpError .decode, ?_, rfl⟩
    unfold getEntityFromUrl
    rw [h]
    simp [h404, errorForStatus, hs, hd]

/-- Witness for C8 at concrete failures: a transport failure surfaces an
error of transport kind; a 503 surfaces an error of status kind carrying 503. -/
theorem error_taxonomy_spec_witness :
    (∃ e, getEntityFromUrl decNat (fun _ => TransportOut.failure) "chart" = .error e ∧
      e.kind = .transport) ∧
    (∃ e, getEntityFromUrl decNat (fun _ => .response ⟨503⟩ Json.null) "chart" =
      .error e ∧ e.kind = .badStatus ∧ e.statusOf = some ⟨503⟩) :=
  ⟨(error_taxonomy_spec decNat (fun _ => TransportOut.failure) "chart"
      (.ok none)).2.2.2.1 rfl,
   (error_taxonomy_spec decNat (fun _ => .response ⟨503⟩ Json.null) "chart"
      (.ok none)).2.2.2.2.1 ⟨503⟩ Json.null rfl (by decide) rfl⟩

/-- Claim C7 counterexample: `ArtistAlbum`'s by-id URL does not have the shape
`"{kind}/{id}"` — at id 27 it is `"artist/27/albums"`, which has a
relationship segment after the id, so no choice of kind segment makes it
`kind ++ "/" ++ "27"`. -/
theorem artist_album_url_shape_counterexample :
    ¬ ∃ kind : String, artistAlbumGetById 27 = kind ++ "/" ++ toString 27 := by
  rintro ⟨kind, h⟩
  rw [show toString (27 : Nat) = "27" from rfl] at h
  rw [show artistAlbumGetById 27 = "artist/27/albums" from by decide] at h
  have h2 := congrArg (fun s : String => s.data.reverse.head?) h
  simp only [String.data_append, List.reverse_append] at h2
  have h3 : ("27".data.reverse ++ ("/".data.reverse ++ kind.data.reverse)).head? =
      some '7' := rfl
  rw [h3] at h2
  exact absurd h2 (by decide)

/-- Claim C7 (amended): every resource type implementing `DeezerObject`
builds its by-id URL as `"{kind}/{id}"` — Album, Artist, Comment, Editorial,
Genre, Playlist, Radio, Track, User all conform — except `ArtistAlbum`, whose
by-id URL is `"artist/{id}/albums"`, with the relationship segment after the
id. -/
theorem deezer_object_url_shapes (id : Nat) :
    byIdUrlShape "album" albumGetApiUrl ∧
    byIdUrlShape "artist" artistGetById ∧
    byIdUrlShape "comment" commentGetApiUrl ∧
    byIdUrlShape "editorial" editorialGetApiUrl ∧
    byIdUrlShape "genre" genreGetApiUrl ∧
    byIdUrlShape "playlist" playlistGetApiUrl ∧
    byIdUrlShape "radio" radioGetApiUrl ∧
    byIdUrlShape "track" trackGetApiUrl ∧
    byIdUrlShape "user" userGetApiUrl ∧
    artistAlbumGetById id = "artist/" ++ toString id ++ "/albums" :=
  ⟨fun _ => rfl, fun _ => rfl, fun _ => rfl, fun _ => rfl, fun _ => rfl,
   fun _ => rfl, fun _ => rfl, fun _ => rfl, fun _ => rfl, rfl⟩

end Deezer
